import Mathlib

/-!
# Verification of the Gourmet Express food-delivery backend core

Shallow embedding of the repository's data model (`src/models/models.py`),
repository operations (`src/crud/crud.py`) and the payment/delivery HTTP
handlers (`src/api/payments.py`, `src/api/deliveries.py`, `src/api/config.py`).

Conventions:
* Monetary values (`Numeric(10, 2)` columns, Python `Decimal` with two
  decimal places) are represented exactly as integer numbers of cents
  (`Money := Int`); Python `Decimal` addition and multiplication by an
  integer are exact, so integer-cents arithmetic is a faithful image.
* A committed database state is a `Db` record of row lists together with
  the next surrogate keys.  `db.get(Model, pk)` and
  `db.scalar(select(M).where(...))` return the first matching row, embedded
  with `List.find?`; an in-place SQLAlchemy field update of the found row is
  embedded by replacing the first matching element of the list.
* A crud function that can raise `ValueError` returns
  `Except String (Db × result)`; an HTTP handler returns
  `Except HttpError (Db × result)` where `HttpError` carries the
  `HTTPException` status code and detail.  On an exception nothing was
  committed and `get_db` (`src/db/session.py`) closes the session, which
  discards all pending changes, so the `run_*` wrappers below return the
  original `Db` unchanged on an error — the embedding of
  rollback-on-exception.
-/

namespace GourmetExpress

/-- Exact fixed-point currency amounts, in cents. -/
abbrev Money := Int

/-- Row of `menu_items` (`MenuItem` in `src/models/models.py`); only the columns
the verified operations read are carried. -/
structure MenuItem where
  id : Int
  restaurant_id : Int
  price : Money
  is_available : Bool
  deriving Repr, DecidableEq

/-- Row of `orders` (`Order` in `src/models/models.py`). -/
structure Order where
  id : Int
  user_id : Int
  restaurant_id : Int
  status : String
  total_amount : Money
  delivery_address : Option String
  deriving Repr, DecidableEq

/-- Row of `order_items` (`OrderItem` in `src/models/models.py`). -/
structure OrderItem where
  order_id : Int
  menu_item_id : Int
  quantity : Int
  unit_price : Money
  line_total : Money
  deriving Repr, DecidableEq

/-- Row of `payments` (`Payment` in `src/models/models.py`). -/
structure Payment where
  id : Int
  order_id : Int
  provider : String
  status : String
  amount : Money
  provider_payment_id : Option String
  raw_payload : Option String
  deriving Repr, DecidableEq

/-- Row of `deliveries` (`Delivery` in `src/models/models.py`). -/
structure Delivery where
  id : Int
  order_id : Int
  delivery_person_id : Option Int
  status : String
  eta_minutes : Option Int
  deriving Repr, DecidableEq

/-- Row of `delivery_status_history` (`DeliveryStatusHistory` in
`src/models/models.py`). -/
structure DeliveryStatusHistory where
  delivery_id : Int
  status : String
  note : Option String
  deriving Repr, DecidableEq

/-- A committed database state: the row lists (in insertion order) and the
next surrogate primary keys. -/
structure Db where
  menu_items : List MenuItem
  orders : List Order
  order_items : List OrderItem
  payments : List Payment
  deliveries : List Delivery
  delivery_status_history : List DeliveryStatusHistory
  next_order_id : Int
  next_payment_id : Int
  next_delivery_id : Int
  deriving Repr, DecidableEq

/-- An `HTTPException(status_code=..., detail=...)` raised by a handler. -/
structure HttpError where
  status_code : Int
  detail : String
  deriving Repr, DecidableEq

/-- The function `_money_sum` in `src/crud/crud.py`: running `Decimal` sum starting from
`Decimal("0.00")`. -/
def money_sum (values : List Money) : Money :=
  values.foldl (fun total v => total + v) 0

/-- One element of the `items: list[dict]` argument of `create_order`
(`{menu_item_id: int, quantity: int}`); `quantity = none` embeds a dict
without the `"quantity"` key, read by `item.get("quantity", 1)`. -/
structure OrderItemRequest where
  menu_item_id : Int
  quantity : Option Int
  deriving Repr, DecidableEq

/-- Lookup `db.get(MenuItem, menu_item_id)` (also `get_menu_item` in
`src/crud/crud.py`). -/
def get_menu_item (db : Db) (menu_item_id : Int) : Option MenuItem :=
  db.menu_items.find? (fun m => m.id == menu_item_id)

/-- The function `get_order` in `src/crud/crud.py`: `db.get(Order, order_id)`. -/
def get_order (db : Db) (order_id : Int) : Option Order :=
  db.orders.find? (fun o => o.id == order_id)

/-- The item loop of `create_order` in `src/crud/crud.py` (lines 92-112):
for each requested item, look the menu item up (`ValueError` if absent),
read the quantity with default 1 (`ValueError` if `< 1`), snapshot
`unit_price` and compute `line_total = unit_price * qty`; collect the
`OrderItem` rows and the line totals. -/
def build_order_items (db : Db) (order_id : Int) :
    List OrderItemRequest → Except String (List OrderItem × List Money)
  | [] => .ok ([], [])
  | item :: rest =>
    match get_menu_item db item.menu_item_id with
    | none => .error ("Menu item " ++ toString item.menu_item_id ++ " not found")
    | some menu_item =>
      let qty := item.quantity.getD 1
      if qty < 1 then
        .error "Quantity must be >= 1"
      else
        match build_order_items db order_id rest with
        | .error e => .error e
        | .ok (ois, lts) =>
          let unit_price := menu_item.price
          let line_total := unit_price * qty
          .ok ({ order_id := order_id, menu_item_id := menu_item.id, quantity := qty,
                 unit_price := unit_price, line_total := line_total } :: ois,
               line_total :: lts)

/-- The function `create_order` in `src/crud/crud.py` (lines 73-119): create the `Order`
row with status `"created"`, build its `OrderItem` rows, set
`total_amount := _money_sum(line_totals)` and commit everything as one unit
of work; any `ValueError` raised before `db.commit()` leaves nothing
committed. -/
def create_order (db : Db) (user_id : Int) (restaurant_id : Int)
    (delivery_address : Option String) (items : List OrderItemRequest) :
    Except String (Db × Order) :=
  let oid := db.next_order_id
  match build_order_items db oid items with
  | .error e => .error e
  | .ok (order_items, line_totals) =>
    let order : Order :=
      { id := oid, user_id := user_id, restaurant_id := restaurant_id,
        status := "created", total_amount := money_sum line_totals,
        delivery_address := delivery_address }
    .ok ({ db with
            orders := db.orders ++ [order],
            order_items := db.order_items ++ order_items,
            next_order_id := oid + 1 }, order)

/-- Running `create_order` as observed through the request boundary: on a
`ValueError` the session is closed uncommitted (`get_db` in
`src/db/session.py`), so the store is unchanged. -/
def run_create_order (db : Db) (user_id : Int) (restaurant_id : Int)
    (delivery_address : Option String) (items : List OrderItemRequest) :
    Db × Option Order :=
  match create_order db user_id restaurant_id delivery_address items with
  | .ok (db', o) => (db', some o)
  | .error _ => (db, none)

/-- The price `create_order` charges for a referenced menu item: the current
`price` of the first `menu_items` row with that id (0 is never read: the
theorems only use this under the hypothesis that the item exists). -/
def current_price (db : Db) (menu_item_id : Int) : Money :=
  ((get_menu_item db menu_item_id).map MenuItem.price).getD 0

/-- A requested item is valid when its menu item exists and its (defaulted)
quantity is at least 1. -/
def valid_item (db : Db) (item : OrderItemRequest) : Prop :=
  (get_menu_item db item.menu_item_id).isSome ∧ 1 ≤ item.quantity.getD 1

instance (db : Db) (item : OrderItemRequest) : Decidable (valid_item db item) := by
  unfold valid_item
  infer_instance

/-- The two `ValueError` messages the item loop of `create_order` can
raise: a "menu item not found" error, or the quantity validation error. -/
def order_item_error (e : String) : Prop :=
  (∃ mid : Int, e = "Menu item " ++ toString mid ++ " not found") ∨
  e = "Quantity must be >= 1"

/-- In-place update of the `Order` row that `db.get(Order, order_id)` found:
replace the first `orders` element with that id. -/
def update_first_order : List Order → Int → String → List Order
  | [], _, _ => []
  | o :: rest, order_id, status =>
    if o.id == order_id then { o with status := status } :: rest
    else o :: update_first_order rest order_id status

/-- The function `set_order_status` in `src/crud/crud.py` (lines 129-137):
`db.get(Order, order_id)`, `ValueError` if absent, else set `status` and
commit. -/
def set_order_status (db : Db) (order_id : Int) (status : String) :
    Except String (Db × Order) :=
  match get_order db order_id with
  | none => .error "Order not found"
  | some order =>
    let order' := { order with status := status }
    .ok ({ db with orders := update_first_order db.orders order_id status }, order')

/-- In-place update of the `Payment` row that
`db.scalar(select(Payment).where(Payment.order_id == order_id))` found:
replace the first `payments` element with that `order_id`. -/
def update_first_payment : List Payment → Int → Payment → List Payment
  | [], _, _ => []
  | p :: rest, order_id, p' =>
    if p.order_id == order_id then p' :: rest
    else p :: update_first_payment rest order_id p'

/-- The function `upsert_payment_for_order` in `src/crud/crud.py` (lines 141-165): fetch
the first payment with this `order_id`; if none, insert a new row from the
arguments; else overwrite its `provider`, `amount`, `status`,
`provider_payment_id` and `raw_payload` with the arguments.  The Python
defaults (`status="pending"`, `provider_payment_id=None`,
`raw_payload=None`) are embedded by the caller passing those values. -/
def upsert_payment_for_order (db : Db) (order_id : Int) (provider : String)
    (amount : Money) (status : String) (provider_payment_id : Option String)
    (raw_payload : Option String) : Db × Payment :=
  match db.payments.find? (fun p => p.order_id == order_id) with
  | none =>
    let payment : Payment :=
      { id := db.next_payment_id, order_id := order_id, provider := provider,
        status := status, amount := amount,
        provider_payment_id := provider_payment_id, raw_payload := raw_payload }
    ({ db with payments := db.payments ++ [payment],
               next_payment_id := db.next_payment_id + 1 }, payment)
  | some payment =>
    let payment' :=
      { payment with provider := provider, amount := amount, status := status,
                     provider_payment_id := provider_payment_id,
                     raw_payload := raw_payload }
    ({ db with payments := update_first_payment db.payments order_id payment' },
     payment')

/-- Python truthiness of an `Optional[int]`: `None` and `0` are falsy. -/
def truthy_int (v : Option Int) : Bool :=
  match v with
  | none => false
  | some n => n != 0

/-- The function `create_delivery` in `src/crud/crud.py` (lines 169-180): insert the
`Delivery` with status `"assigned" if delivery_person_id else "unassigned"`
(Python truthiness), then insert one initial `DeliveryStatusHistory` row
mirroring that status with note `"Initial status"`. -/
def create_delivery (db : Db) (order_id : Int) (delivery_person_id : Option Int)
    (eta_minutes : Option Int) : Db × Delivery :=
  let delivery : Delivery :=
    { id := db.next_delivery_id, order_id := order_id,
      delivery_person_id := delivery_person_id,
      status := if truthy_int delivery_person_id then "assigned" else "unassigned",
      eta_minutes := eta_minutes }
  let hist : DeliveryStatusHistory :=
    { delivery_id := delivery.id, status := delivery.status,
      note := some "Initial status" }
  ({ db with deliveries := db.deliveries ++ [delivery],
             delivery_status_history := db.delivery_status_history ++ [hist],
             next_delivery_id := db.next_delivery_id + 1 }, delivery)

/-- In-place update of the `Delivery` row that `db.get(Delivery, delivery_id)`
found: replace the first `deliveries` element with that id. -/
def update_first_delivery : List Delivery → Int → String → List Delivery
  | [], _, _ => []
  | d :: rest, delivery_id, status =>
    if d.id == delivery_id then { d with status := status } :: rest
    else d :: update_first_delivery rest delivery_id status

/-- The function `set_delivery_status` in `src/crud/crud.py` (lines 184-194):
`db.get(Delivery, delivery_id)`, `ValueError` if absent; else set the
delivery's `status` (any string) and append one `DeliveryStatusHistory`
row with that status and the note, committed together. -/
def set_delivery_status (db : Db) (delivery_id : Int) (status : String)
    (note : Option String) : Except String (Db × Delivery) :=
  match db.deliveries.find? (fun d => d.id == delivery_id) with
  | none => .error "Delivery not found"
  | some delivery =>
    let delivery' := { delivery with status := status }
    .ok ({ db with
            deliveries := update_first_delivery db.deliveries delivery_id status,
            delivery_status_history := db.delivery_status_history ++
              [{ delivery_id := delivery_id, status := status, note := note }] },
         delivery')

/-- Running `set_delivery_status` as observed through the request boundary: a
`ValueError` leaves the store unchanged (session closed uncommitted). -/
def run_set_delivery_status (db : Db) (delivery_id : Int) (status : String)
    (note : Option String) : Db × Option Delivery :=
  match set_delivery_status db delivery_id status note with
  | .ok (db', d) => (db', some d)
  | .error _ => (db, none)

/-- Modelled from the spec: `get_payment_by_provider_payment_id`, the crud
lookup called by the webhook handler (`src/api/payments.py` line 94) but not
present in `src/crud/crud.py` — "Requires a Payment matching the
provider-assigned identifier in the event to already exist": the payment
whose `provider_payment_id` equals the event's provider payment id. -/
def get_payment_by_provider_payment_id (db : Db) (provider_payment_id : String) :
    Option Payment :=
  db.payments.find? (fun p => p.provider_payment_id == some provider_payment_id)

/-- Modelled from the spec: `get_delivery_by_order_id`, the crud lookup
called by `POST /deliveries` (`src/api/deliveries.py` line 33) but not
present in `src/crud/crud.py` — the (at most one) existing Delivery of the
order, "belongs to exactly one Order (one-to-one)". -/
def get_delivery_by_order_id (db : Db) (order_id : Int) : Option Delivery :=
  db.deliveries.find? (fun d => d.order_id == order_id)

/-- The function `get_payment_webhook_secret` in `src/api/config.py` (lines 29-39):
`os.getenv("PAYMENT_WEBHOOK_SECRET", "dev_webhook_secret")`; the argument is
the environment variable's value, `none` when unset. -/
def get_payment_webhook_secret (env : Option String) : String :=
  env.getD "dev_webhook_secret"

/-- Modelled from the spec: the `PaymentWebhookEvent` body schema of the
webhook endpoint, absent from `src/schemas/schemas.py` — "body: provider
payment id, order id, provider, status", matching the fields the handler
reads (`event.provider_payment_id`, `event.order_id`, `event.provider`,
`event.status`). -/
structure PaymentWebhookEvent where
  provider_payment_id : String
  order_id : Int
  provider : String
  status : String
  deriving Repr, DecidableEq

/-- What the webhook handler returns on success: the payment id, and the
order id/status when the order was updated. -/
structure WebhookAck where
  payment_id : Int
  order_id : Option Int
  order_status : Option String
  deriving Repr, DecidableEq

/-- Stand-in for `json.dumps({"event": event.model_dump()})`: some canonical
serialization of the event (its exact text is irrelevant to the claims). -/
def event_dump (event : PaymentWebhookEvent) : String :=
  "event " ++ event.provider_payment_id ++ " " ++ toString event.order_id ++
    " " ++ event.provider ++ " " ++ event.status

/-- The function `mock_payment_webhook` in `src/api/payments.py` (lines 83-128).
`env` is the `PAYMENT_WEBHOOK_SECRET` environment value,
`x_webhook_secret` the `X-Webhook-Secret` header (absent = `none`), and
`raw_body` the UTF-8 decoding of the request body (`none` when decoding
fails).  Steps, in source order: secret check (Python falsiness: a missing
or empty header fails, as does a mismatch) → 401; payment lookup by
provider payment id → 404; order id match check → 400; re-upsert of the
payment with the event's status and raw payload; then the status mapping
onto the order (`set_order_status`, whose uncaught `ValueError` the hosting
framework would surface as a 500). -/
def mock_payment_webhook (env : Option String) (x_webhook_secret : Option String)
    (event : PaymentWebhookEvent) (raw_body : Option String) (db : Db) :
    Except HttpError (Db × WebhookAck) :=
  let expected := get_payment_webhook_secret env
  let falsy : Bool :=
    match x_webhook_secret with
    | none => true
    | some s => s == ""
  if falsy || (x_webhook_secret != some expected) then
    .error { status_code := 401, detail := "Invalid webhook secret" }
  else
    match get_payment_by_provider_payment_id db event.provider_payment_id with
    | none => .error { status_code := 404, detail := "Payment not found for provider_payment_id" }
    | some payment =>
      if payment.order_id != event.order_id then
        .error { status_code := 400, detail := "order_id mismatch for this payment" }
      else
        let raw_payload : Option String :=
          match raw_body with
          | some s => if s == "" then some (event_dump event) else some s
          | none => some (event_dump event)
        let res := upsert_payment_for_order db event.order_id event.provider
          payment.amount event.status (some event.provider_payment_id) raw_payload
        let db1 := res.1
        let payment1 := res.2
        if event.status == "authorized" || event.status == "captured" then
          match set_order_status db1 event.order_id "confirmed" with
          | .error e => .error { status_code := 500, detail := e }
          | .ok (db2, o) =>
            .ok (db2, { payment_id := payment1.id, order_id := some o.id,
                        order_status := some o.status })
        else if event.status == "failed" then
          match set_order_status db1 event.order_id "cancelled" with
          | .error e => .error { status_code := 500, detail := e }
          | .ok (db2, o) =>
            .ok (db2, { payment_id := payment1.id, order_id := some o.id,
                        order_status := some o.status })
        else
          .ok (db1, { payment_id := payment1.id, order_id := none,
                      order_status := none })

/-- The webhook handler as observed through the request boundary: on any
raised exception the session closes uncommitted and the store is unchanged. -/
def run_mock_payment_webhook (env : Option String)
    (x_webhook_secret : Option String) (event : PaymentWebhookEvent)
    (raw_body : Option String) (db : Db) : Db × Option WebhookAck :=
  match mock_payment_webhook env x_webhook_secret event raw_body db with
  | .ok (db', ack) => (db', some ack)
  | .error _ => (db, none)

/-- The `DeliveryCreate` body schema of `POST /deliveries`
(`src/schemas/schemas.py` lines 134-137). -/
structure DeliveryCreate where
  order_id : Int
  delivery_person_id : Option Int
  eta_minutes : Option Int
  deriving Repr, DecidableEq

/-- The function `create_delivery_endpoint` in `src/api/deliveries.py` (lines 27-43):
404 if the order is absent, 409 if a Delivery already exists for the order,
else `crud.create_delivery`. -/
def create_delivery_endpoint (db : Db) (payload : DeliveryCreate) :
    Except HttpError (Db × Delivery) :=
  match get_order db payload.order_id with
  | none => .error { status_code := 404, detail := "Order not found" }
  | some _ =>
    match get_delivery_by_order_id db payload.order_id with
    | some _ => .error { status_code := 409, detail := "Delivery already exists for this order" }
    | none =>
      .ok (create_delivery db payload.order_id payload.delivery_person_id
            payload.eta_minutes)

/-- Endpoint `POST /deliveries` as observed through the request boundary: a raised
`HTTPException` leaves the store unchanged. -/
def run_create_delivery_endpoint (db : Db) (payload : DeliveryCreate) :
    Db × Option Delivery :=
  match create_delivery_endpoint db payload with
  | .ok (db', d) => (db', some d)
  | .error _ => (db, none)

/-! ### Concrete fixtures used to instantiate the theorems -/

/-- An empty store. -/
def empty_db : Db :=
  { menu_items := [], orders := [], order_items := [], payments := [],
    deliveries := [], delivery_status_history := [], next_order_id := 1,
    next_payment_id := 1, next_delivery_id := 1 }

/-- A menu item priced 9.99. -/
def demo_menu_item1 : MenuItem :=
  { id := 1, restaurant_id := 1, price := 999, is_available := true }

/-- A menu item priced 4.50. -/
def demo_menu_item2 : MenuItem :=
  { id := 2, restaurant_id := 1, price := 450, is_available := true }

/-- A store holding the two demo menu items. -/
def demo_db : Db :=
  { empty_db with menu_items := [demo_menu_item1, demo_menu_item2] }

/-- The spec's worked example: 9.99 × 2 and 4.50 × 1. -/
def demo_items : List OrderItemRequest :=
  [{ menu_item_id := 1, quantity := some 2 },
   { menu_item_id := 2, quantity := some 1 }]

/-- An order of total 24.48. -/
def demo_order : Order :=
  { id := 7, user_id := 1, restaurant_id := 1, status := "created",
    total_amount := 2448, delivery_address := none }

/-- A pending payment for the demo order, provider payment id `mock_abc`. -/
def demo_payment : Payment :=
  { id := 3, order_id := 7, provider := "mock", status := "pending",
    amount := 2448, provider_payment_id := some "mock_abc", raw_payload := none }

/-- The demo store together with the demo order and its payment. -/
def demo_db_with_payment : Db :=
  { demo_db with
    orders := [demo_order], payments := [demo_payment],
    next_order_id := 8, next_payment_id := 4 }

/-- An unassigned delivery for the demo order. -/
def demo_delivery : Delivery :=
  { id := 5, order_id := 7, delivery_person_id := none, status := "unassigned",
    eta_minutes := none }

/-- The demo store together with the demo delivery. -/
def demo_db_with_delivery : Db :=
  { demo_db_with_payment with
    deliveries := [demo_delivery], next_delivery_id := 6 }

/-- The mutable-field arguments of one `upsert_payment_for_order` call
(`provider`, `amount`, `status`, `provider_payment_id`, `raw_payload`);
a field the Python caller omits arrives as its default (`"pending"`,
`None`, `None`). -/
structure PaymentArgs where
  provider : String
  amount : Money
  status : String
  provider_payment_id : Option String
  raw_payload : Option String
  deriving Repr, DecidableEq

/-- `upsert_payment_for_order` with its mutable-field arguments packaged. -/
def upsert_args (db : Db) (order_id : Int) (a : PaymentArgs) : Db × Payment :=
  upsert_payment_for_order db order_id a.provider a.amount a.status
    a.provider_payment_id a.raw_payload

/-- Arguments of a first upsert call. -/
def demo_payment_args1 : PaymentArgs :=
  { provider := "mock", amount := 2448, status := "authorized",
    provider_payment_id := some "mock_abc", raw_payload := some "first" }

/-- Arguments of a second upsert call that leaves the optional fields at
their Python defaults. -/
def demo_payment_args2 : PaymentArgs :=
  { provider := "stripe", amount := 1000, status := "pending",
    provider_payment_id := none, raw_payload := none }

/-- A webhook event referencing the demo payment, status `authorized`. -/
def demo_event : PaymentWebhookEvent :=
  { provider_payment_id := "mock_abc", order_id := 7, provider := "mock",
    status := "authorized" }

/-- A webhook event whose provider payment id matches no payment. -/
def demo_event_unknown : PaymentWebhookEvent :=
  { provider_payment_id := "nope", order_id := 7, provider := "mock",
    status := "authorized" }

/-- A webhook event naming the demo payment but the wrong order. -/
def demo_event_mismatch : PaymentWebhookEvent :=
  { provider_payment_id := "mock_abc", order_id := 8, provider := "mock",
    status := "authorized" }

/-- An order request whose quantity is 0 (invalid). -/
def demo_bad_items : List OrderItemRequest :=
  [{ menu_item_id := 1, quantity := some 0 }]

/-- An order request referencing a missing menu item. -/
def demo_missing_items : List OrderItemRequest :=
  [{ menu_item_id := 99, quantity := some 1 }]

/-- A `POST /deliveries` body naming a missing order. -/
def demo_delivery_payload_missing : DeliveryCreate :=
  { order_id := 3, delivery_person_id := none, eta_minutes := none }

/-- A `POST /deliveries` body naming the order that already has a delivery. -/
def demo_delivery_payload_conflict : DeliveryCreate :=
  { order_id := 7, delivery_person_id := none, eta_minutes := none }

/-! ### Theorems -/

/-- Under validity of every requested item, the item loop succeeds, the line
totals are exactly quantity × current price per requested item, and every
built `OrderItem` carries `line_total = unit_price * quantity` with a
positive quantity. -/
theorem build_order_items_of_valid (db : Db) (oid : Int)
    (items : List OrderItemRequest) (h : ∀ item ∈ items, valid_item db item) :
    ∃ ois, build_order_items db oid items =
      .ok (ois, items.map (fun it => current_price db it.menu_item_id * it.quantity.getD 1)) ∧
      ∀ oi ∈ ois, oi.line_total = oi.unit_price * oi.quantity := by
  induction items with
  | nil => exact ⟨[], rfl, by simp⟩
  | cons item rest ih =>
    obtain ⟨hmem, hqty⟩ := h item (List.mem_cons_self _ _)
    obtain ⟨m, hm⟩ := Option.isSome_iff_exists.mp hmem
    obtain ⟨ois, hok, hlt⟩ := ih (fun i hi => h i (List.mem_cons_of_mem _ hi))
    have hnotlt : ¬ (item.quantity.getD 1 < 1) := by omega
    refine ⟨{ order_id := oid, menu_item_id := m.id,
              quantity := item.quantity.getD 1, unit_price := m.price,
              line_total := m.price * item.quantity.getD 1 } :: ois, ?_, ?_⟩
    · simp only [build_order_items, hm, hok, if_neg hnotlt, List.map_cons]
      have hp : current_price db item.menu_item_id = m.price := by
        simp [current_price, hm]
      rw [hp]
    · intro oi hoi
      rcases List.mem_cons.mp hoi with rfl | hmemr
      · rfl
      · exact hlt oi hmemr

/-- C1: for every valid order-creation request (every referenced menu item
exists and every quantity is at least 1), the Order persisted by
`create_order` has `total_amount` exactly equal to the sum over the
requested items of quantity times the menu item's current unit price,
computed with exact fixed-point arithmetic, and each persisted OrderItem's
`line_total` equals `unit_price` times `quantity`. -/
theorem create_order_total_exact (db : Db) (user_id : Int) (restaurant_id : Int)
    (delivery_address : Option String) (items : List OrderItemRequest)
    (h : ∀ item ∈ items, valid_item db item) :
    ∃ db' o ois,
      create_order db user_id restaurant_id delivery_address items = .ok (db', o) ∧
      o.total_amount =
        money_sum (items.map
          (fun it => it.quantity.getD 1 * current_price db it.menu_item_id)) ∧
      db'.order_items = db.order_items ++ ois ∧
      ∀ oi ∈ ois, oi.line_total = oi.unit_price * oi.quantity := by
  obtain ⟨ois, hok, hlt⟩ := build_order_items_of_valid db db.next_order_id items h
  have hmaps : items.map (fun it => it.quantity.getD 1 * current_price db it.menu_item_id)
      = items.map (fun it => current_price db it.menu_item_id * it.quantity.getD 1) := by
    have hfun : (fun (it : OrderItemRequest) =>
        it.quantity.getD 1 * current_price db it.menu_item_id)
        = (fun it => current_price db it.menu_item_id * it.quantity.getD 1) :=
      funext (fun it => mul_comm _ _)
    rw [hfun]
  cases hres : create_order db user_id restaurant_id delivery_address items with
  | error e =>
    simp only [create_order, hok] at hres
    exact Except.noConfusion hres
  | ok r =>
    obtain ⟨db', o⟩ := r
    have horig := hres
    simp only [create_order, hok, Except.ok.injEq, Prod.mk.injEq] at hres
    obtain ⟨hdb, ho⟩ := hres
    subst hdb
    subst ho
    exact ⟨_, _, ois, rfl, by rw [hmaps], rfl, hlt⟩

/-- Closed instance of C1 at the spec's worked example (9.99 × 2 and
4.50 × 1, total 24.48 = 2448 cents). -/
theorem create_order_total_exact_witness :
    (∀ item ∈ demo_items, valid_item demo_db item) ∧
    money_sum (demo_items.map
      (fun it => it.quantity.getD 1 * current_price demo_db it.menu_item_id)) = 2448 ∧
    (∃ db' o ois,
      create_order demo_db 1 1 none demo_items = .ok (db', o) ∧
      o.total_amount =
        money_sum (demo_items.map
          (fun it => it.quantity.getD 1 * current_price demo_db it.menu_item_id)) ∧
      db'.order_items = demo_db.order_items ++ ois ∧
      ∀ oi ∈ ois, oi.line_total = oi.unit_price * oi.quantity) :=
  ⟨by decide, by decide, create_order_total_exact demo_db 1 1 none demo_items (by decide)⟩

/-- If some requested item is invalid, the item loop of `create_order`
raises a "menu item not found" or quantity validation error. -/
theorem build_order_items_error_of_invalid (db : Db) (oid : Int)
    (items : List OrderItemRequest) (h : ∃ item ∈ items, ¬ valid_item db item) :
    ∃ e, build_order_items db oid items = .error e ∧ order_item_error e := by
  induction items with
  | nil => simp at h
  | cons item rest ih =>
    by_cases hv : valid_item db item
    · obtain ⟨i, hi, hni⟩ := h
      rcases List.mem_cons.mp hi with rfl | hmemr
      · exact absurd hv hni
      · obtain ⟨e, he, hkind⟩ := ih ⟨i, hmemr, hni⟩
        obtain ⟨hmem, hqty⟩ := hv
        obtain ⟨m, hm⟩ := Option.isSome_iff_exists.mp hmem
        have hnotlt : ¬ (item.quantity.getD 1 < 1) := by omega
        exact ⟨e, by simp only [build_order_items, hm, if_neg hnotlt, he], hkind⟩
    · unfold valid_item at hv
      cases hfind : get_menu_item db item.menu_item_id with
      | none =>
        exact ⟨"Menu item " ++ toString item.menu_item_id ++ " not found",
               by simp only [build_order_items, hfind],
               Or.inl ⟨item.menu_item_id, rfl⟩⟩
      | some m =>
        have hqty : item.quantity.getD 1 < 1 := by
          by_contra hc
          exact hv ⟨by simp [hfind], by omega⟩
        exact ⟨"Quantity must be >= 1",
               by simp only [build_order_items, hfind, if_pos hqty],
               Or.inr rfl⟩

/-- C2: for every order-creation request in which some requested menu item
identifier does not resolve to an existing MenuItem or some quantity is
below 1, `create_order` fails with an error and the store is unchanged —
no Order row and no OrderItem rows are persisted (all-or-nothing). -/
theorem create_order_invalid_aborts (db : Db) (user_id : Int)
    (restaurant_id : Int) (delivery_address : Option String)
    (items : List OrderItemRequest)
    (h : ∃ item ∈ items, ¬ valid_item db item) :
    (∃ e, create_order db user_id restaurant_id delivery_address items = .error e ∧
      order_item_error e) ∧
    run_create_order db user_id restaurant_id delivery_address items = (db, none) := by
  obtain ⟨e, he, hkind⟩ :=
    build_order_items_error_of_invalid db db.next_order_id items h
  constructor
  · exact ⟨e, by simp only [create_order, he], hkind⟩
  · simp only [run_create_order, create_order, he]

/-- Closed instance of C2 at a request with quantity 0. -/
theorem create_order_invalid_aborts_witness :
    (∃ item ∈ demo_bad_items, ¬ valid_item demo_db item) ∧
    (∃ e, create_order demo_db 1 1 none demo_bad_items = .error e ∧
      order_item_error e) ∧
    run_create_order demo_db 1 1 none demo_bad_items = (demo_db, none) :=
  ⟨by decide,
   (create_order_invalid_aborts demo_db 1 1 none demo_bad_items (by decide)).1,
   (create_order_invalid_aborts demo_db 1 1 none demo_bad_items (by decide)).2⟩

/-- C10: `create_order` accepts an empty items list (the non-empty
precondition is not enforced at this layer): it persists an Order with
status "created", total_amount exactly 0.00 and no OrderItem rows; and an
item dict without the quantity key defaults to quantity 1. -/
theorem create_order_empty_items_default_quantity (db : Db) (user_id : Int)
    (restaurant_id : Int) (delivery_address : Option String) (i : Int)
    (m : MenuItem) (hm : get_menu_item db i = some m) :
    (∃ db' o,
      create_order db user_id restaurant_id delivery_address [] = .ok (db', o) ∧
      o.status = "created" ∧ o.total_amount = 0 ∧
      db'.order_items = db.order_items ∧ db'.orders = db.orders ++ [o]) ∧
    (∃ db' o oi,
      create_order db user_id restaurant_id delivery_address
        [{ menu_item_id := i, quantity := none }] = .ok (db', o) ∧
      db'.order_items = db.order_items ++ [oi] ∧ oi.quantity = 1) := by
  constructor
  · refine ⟨_, _, rfl, rfl, rfl, ?_, rfl⟩
    exact List.append_nil _
  · have hb : build_order_items db db.next_order_id
        [{ menu_item_id := i, quantity := none }] =
        .ok ([{ order_id := db.next_order_id, menu_item_id := m.id, quantity := 1,
                unit_price := m.price, line_total := m.price * 1 }],
             [m.price * 1]) := by
      simp [build_order_items, hm]
    cases hres : create_order db user_id restaurant_id delivery_address
        [{ menu_item_id := i, quantity := none }] with
    | error e =>
      simp only [create_order, hb] at hres
      exact Except.noConfusion hres
    | ok r =>
      obtain ⟨db', o⟩ := r
      have horig := hres
      simp only [create_order, hb, Except.ok.injEq, Prod.mk.injEq] at hres
      obtain ⟨hdb, ho⟩ := hres
      subst hdb
      subst ho
      exact ⟨_, _, _, rfl, rfl, rfl⟩

/-- Closed instance of C10 at the demo store. -/
theorem create_order_empty_items_default_quantity_witness :
    get_menu_item demo_db 1 = some demo_menu_item1 ∧
    ((∃ db' o,
      create_order demo_db 1 1 none [] = .ok (db', o) ∧
      o.status = "created" ∧ o.total_amount = 0 ∧
      db'.order_items = demo_db.order_items ∧ db'.orders = demo_db.orders ++ [o]) ∧
    (∃ db' o oi,
      create_order demo_db 1 1 none [{ menu_item_id := 1, quantity := none }] = .ok (db', o) ∧
      db'.order_items = demo_db.order_items ++ [oi] ∧ oi.quantity = 1)) :=
  ⟨by decide,
   create_order_empty_items_default_quantity demo_db 1 1 none 1 demo_menu_item1 (by decide)⟩

/-- Replacing the first payment of an order by a payment of that same order
leaves exactly that payment as the order's payments, provided the order had
at most one payment row. -/
theorem filter_update_first_payment (oid : Int) (p' : Payment)
    (hp' : p'.order_id = oid) :
    ∀ l : List Payment, l.countP (fun p => p.order_id == oid) ≤ 1 →
    (l.find? (fun p => p.order_id == oid)).isSome →
    (update_first_payment l oid p').filter (fun p => p.order_id == oid) = [p'] := by
  intro l
  induction l with
  | nil => intro _ hfind; simp at hfind
  | cons q rest ih =>
    intro hcount hfind
    by_cases hq : (q.order_id == oid) = true
    · have hrest : rest.countP (fun p => p.order_id == oid) = 0 := by
        rw [List.countP_cons] at hcount
        simp only [hq, if_pos] at hcount
        omega
      have hrestnil : rest.filter (fun p => p.order_id == oid) = [] := by
        rw [List.filter_eq_nil_iff]
        intro a ha
        have := List.countP_eq_zero.mp hrest a ha
        simpa using this
      simp only [update_first_payment, if_pos hq, List.filter_cons]
      have hp'true : (p'.order_id == oid) = true := by simp [hp']
      simp [hp'true, hrestnil]
    · have hfindrest : (rest.find? (fun p => p.order_id == oid)).isSome := by
        rw [List.find?_cons_of_neg _ (by simpa using hq)] at hfind
        exact hfind
      have hcountrest : rest.countP (fun p => p.order_id == oid) ≤ 1 := by
        rw [List.countP_cons] at hcount
        omega
      simp only [update_first_payment, if_neg hq, List.filter_cons]
      exact ih hcountrest hfindrest

/-- After an upsert, the order's payment rows are exactly the returned
payment, when the order had at most one payment row before. -/
theorem upsert_args_unique (db : Db) (oid : Int) (a : PaymentArgs)
    (h : db.payments.countP (fun p => p.order_id == oid) ≤ 1) :
    (upsert_args db oid a).1.payments.filter (fun p => p.order_id == oid) =
      [(upsert_args db oid a).2] := by
  cases hfind : db.payments.find? (fun p => p.order_id == oid) with
  | none =>
    have hall := List.find?_eq_none.mp hfind
    have hnil : db.payments.filter (fun p => p.order_id == oid) = [] := by
      rw [List.filter_eq_nil_iff]
      exact fun a ha => by simpa using hall a ha
    simp [upsert_args, upsert_payment_for_order, hfind, List.filter_append, hnil]
  | some p =>
    have hsome : (db.payments.find? (fun q => q.order_id == oid)).isSome := by
      simp [hfind]
    have hordid : p.order_id = oid := by
      have := List.find?_some hfind
      simpa using this
    simp only [upsert_args, upsert_payment_for_order, hfind]
    refine filter_update_first_payment oid _ ?_ db.payments h hsome
    exact hordid

/-- The payment returned by an upsert carries exactly the call's mutable
field values and the call's order id. -/
theorem upsert_args_fields (db : Db) (oid : Int) (a : PaymentArgs) :
    (upsert_args db oid a).2.provider = a.provider ∧
    (upsert_args db oid a).2.amount = a.amount ∧
    (upsert_args db oid a).2.status = a.status ∧
    (upsert_args db oid a).2.provider_payment_id = a.provider_payment_id ∧
    (upsert_args db oid a).2.raw_payload = a.raw_payload := by
  cases hfind : db.payments.find? (fun p => p.order_id == oid) with
  | none => simp [upsert_args, upsert_payment_for_order, hfind]
  | some p => simp [upsert_args, upsert_payment_for_order, hfind]

/-- C3: after two successive `upsert_payment_for_order` calls for an order
(that had at most one payment row, per the unique constraint), exactly one
Payment row exists for the order and each of its mutable fields equals the
value passed in the latest call; fields left at their defaults in the
latest call are overwritten with those defaults rather than keeping the
earlier call's values. -/
theorem upsert_payment_twice_full_replace (db : Db) (oid : Int)
    (a1 a2 : PaymentArgs)
    (h : db.payments.countP (fun p => p.order_id == oid) ≤ 1) :
    (upsert_args (upsert_args db oid a1).1 oid a2).1.payments.filter
        (fun p => p.order_id == oid) =
      [(upsert_args (upsert_args db oid a1).1 oid a2).2] ∧
    (upsert_args (upsert_args db oid a1).1 oid a2).2.provider = a2.provider ∧
    (upsert_args (upsert_args db oid a1).1 oid a2).2.amount = a2.amount ∧
    (upsert_args (upsert_args db oid a1).1 oid a2).2.status = a2.status ∧
    (upsert_args (upsert_args db oid a1).1 oid a2).2.provider_payment_id =
      a2.provider_payment_id ∧
    (upsert_args (upsert_args db oid a1).1 oid a2).2.raw_payload =
      a2.raw_payload := by
  have h1 := upsert_args_unique db oid a1 h
  have hcount1 : (upsert_args db oid a1).1.payments.countP
      (fun p => p.order_id == oid) ≤ 1 := by
    rw [List.countP_eq_length_filter, h1]
    simp
  exact ⟨upsert_args_unique _ oid a2 hcount1, upsert_args_fields _ oid a2⟩

/-- Closed instance of C3: two upserts on the demo store; the second call's
defaults (`pending`, no provider payment id, no raw payload) replace the
first call's values. -/
theorem upsert_payment_twice_full_replace_witness :
    demo_db.payments.countP (fun p => p.order_id == 7) ≤ 1 ∧
    ((upsert_args (upsert_args demo_db 7 demo_payment_args1).1 7
        demo_payment_args2).1.payments.filter (fun p => p.order_id == 7) =
      [(upsert_args (upsert_args demo_db 7 demo_payment_args1).1 7
          demo_payment_args2).2] ∧
    (upsert_args (upsert_args demo_db 7 demo_payment_args1).1 7
        demo_payment_args2).2.provider = demo_payment_args2.provider ∧
    (upsert_args (upsert_args demo_db 7 demo_payment_args1).1 7
        demo_payment_args2).2.amount = demo_payment_args2.amount ∧
    (upsert_args (upsert_args demo_db 7 demo_payment_args1).1 7
        demo_payment_args2).2.status = demo_payment_args2.status ∧
    (upsert_args (upsert_args demo_db 7 demo_payment_args1).1 7
        demo_payment_args2).2.provider_payment_id =
      demo_payment_args2.provider_payment_id ∧
    (upsert_args (upsert_args demo_db 7 demo_payment_args1).1 7
        demo_payment_args2).2.raw_payload = demo_payment_args2.raw_payload) :=
  ⟨by decide,
   upsert_payment_twice_full_replace demo_db 7 demo_payment_args1
     demo_payment_args2 (by decide)⟩

/-- C4: a webhook request whose `X-Webhook-Secret` header is absent or
differs from the configured secret fails with 401 Unauthorized, and no
Payment row and no Order row is mutated, regardless of the payload's
contents and of whether the referenced payment exists. -/
theorem webhook_bad_secret_unauthorized (env x : Option String)
    (event : PaymentWebhookEvent) (rb : Option String) (db : Db)
    (h : x = none ∨ ∃ s, x = some s ∧ s ≠ get_payment_webhook_secret env) :
    mock_payment_webhook env x event rb db =
      .error { status_code := 401, detail := "Invalid webhook secret" } ∧
    run_mock_payment_webhook env x event rb db = (db, none) := by
  rcases h with rfl | ⟨s, rfl, hne⟩
  · constructor <;> simp [mock_payment_webhook, run_mock_payment_webhook]
  · have hb : ((some s : Option String) !=
        some (get_payment_webhook_secret env)) = true := by
      simp [hne]
    constructor <;>
      simp [mock_payment_webhook, run_mock_payment_webhook, hb]

/-- Closed instance of C4 with the header absent. -/
theorem webhook_bad_secret_unauthorized_witness :
    ((none : Option String) = none ∨
      ∃ s, (none : Option String) = some s ∧ s ≠ get_payment_webhook_secret none) ∧
    (mock_payment_webhook none none demo_event none demo_db_with_payment =
      .error { status_code := 401, detail := "Invalid webhook secret" } ∧
     run_mock_payment_webhook none none demo_event none demo_db_with_payment =
      (demo_db_with_payment, none)) :=
  ⟨Or.inl rfl,
   webhook_bad_secret_unauthorized none none demo_event none
     demo_db_with_payment (Or.inl rfl)⟩

/-- C6: with a valid secret, a webhook naming an unknown provider payment
id fails with 404, and one naming a known payment but a mismatching order
id fails with 400; in both cases no Payment or Order is mutated. -/
theorem webhook_unknown_payment_or_mismatch (env : Option String) (s : String)
    (event : PaymentWebhookEvent) (rb : Option String) (db : Db)
    (hs : s ≠ "") (hsec : get_payment_webhook_secret env = s) :
    (get_payment_by_provider_payment_id db event.provider_payment_id = none →
      mock_payment_webhook env (some s) event rb db =
        .error { status_code := 404,
                 detail := "Payment not found for provider_payment_id" } ∧
      run_mock_payment_webhook env (some s) event rb db = (db, none)) ∧
    (∀ payment,
      get_payment_by_provider_payment_id db event.provider_payment_id = some payment →
      payment.order_id ≠ event.order_id →
      mock_payment_webhook env (some s) event rb db =
        .error { status_code := 400, detail := "order_id mismatch for this payment" } ∧
      run_mock_payment_webhook env (some s) event rb db = (db, none)) := by
  have hbeq : (s == "") = false := by simp [hs]
  have hbne : ((some s : Option String) !=
      some (get_payment_webhook_secret env)) = false := by
    rw [hsec]
    simp
  constructor
  · intro hnone
    constructor <;>
      simp [mock_payment_webhook, run_mock_payment_webhook, hbeq, hbne, hnone]
  · intro payment hfound hmis
    have hmisb : (payment.order_id != event.order_id) = true := by simp [hmis]
    constructor <;>
      simp [mock_payment_webhook, run_mock_payment_webhook, hbeq, hbne,
        hfound, hmisb]

/-- Closed instance of C6: an unknown provider payment id (404) and a
mismatched order id (400) against the demo store. -/
theorem webhook_unknown_payment_or_mismatch_witness :
    ("dev_webhook_secret" ≠ "" ∧
      get_payment_webhook_secret none = "dev_webhook_secret") ∧
    mock_payment_webhook none (some "dev_webhook_secret") demo_event_unknown
        none demo_db_with_payment =
      .error { status_code := 404,
               detail := "Payment not found for provider_payment_id" } ∧
    mock_payment_webhook none (some "dev_webhook_secret") demo_event_mismatch
        none demo_db_with_payment =
      .error { status_code := 400, detail := "order_id mismatch for this payment" } :=
  ⟨⟨by decide, rfl⟩,
   ((webhook_unknown_payment_or_mismatch none "dev_webhook_secret"
       demo_event_unknown none demo_db_with_payment (by decide) rfl).1
     (by decide)).1,
   ((webhook_unknown_payment_or_mismatch none "dev_webhook_secret"
       demo_event_mismatch none demo_db_with_payment (by decide) rfl).2
     demo_payment (by decide) (by decide)).1⟩

/-- An upsert of a payment row never touches the `orders` table. -/
theorem upsert_payment_orders_unchanged (db : Db) (oid : Int) (pr : String)
    (am : Money) (st : String) (pp rp : Option String) :
    (upsert_payment_for_order db oid pr am st pp rp).1.orders = db.orders := by
  cases hfind : db.payments.find? (fun p => p.order_id == oid) <;>
    simp [upsert_payment_for_order, hfind]

/-- Updating the first order with a given id preserves its position: the
lookup afterwards returns the same row with the new status. -/
theorem find_update_first_order (oid : Int) (st : String) :
    ∀ (l : List Order) (o : Order), l.find? (fun x => x.id == oid) = some o →
      (update_first_order l oid st).find? (fun x => x.id == oid) =
        some { o with status := st } := by
  intro l
  induction l with
  | nil => intro o h; simp at h
  | cons q rest ih =>
    intro o h
    by_cases hq : (q.id == oid) = true
    · simp only [List.find?_cons_of_pos, hq, Option.some.injEq] at h
      subst h
      simp [update_first_order, hq]
    · simp [hq] at h
      simp only [update_first_order, if_neg hq]
      simp [hq, ih o h]

/-- A successful `set_order_status` replaces the first matching order row's
status and returns the updated row. -/
theorem set_order_status_ok (db : Db) (oid : Int) (st : String) (o : Order)
    (h : get_order db oid = some o) :
    set_order_status db oid st =
      .ok ({ db with orders := update_first_order db.orders oid st },
           { o with status := st }) := by
  simp only [set_order_status, h]

/-- After a successful `set_order_status`, looking the order up returns the
row with the new status. -/
theorem get_order_after_set (db : Db) (oid : Int) (st : String) (o : Order)
    (h : get_order db oid = some o) :
    get_order { db with orders := update_first_order db.orders oid st } oid =
      some { o with status := st } := by
  simp only [get_order] at h ⊢
  exact find_update_first_order oid st db.orders o h

/-- C5: for every accepted webhook event (valid secret, payment found, order
id matching, order existing), a status of `authorized` or `captured` makes
the Order's status `confirmed`, a status of `failed` makes it `cancelled`,
and any other status leaves the Order's status unchanged. -/
theorem webhook_maps_status_to_order (env : Option String) (s : String)
    (event : PaymentWebhookEvent) (rb : Option String) (db : Db)
    (payment : Payment) (o : Order)
    (hs : s ≠ "") (hsec : get_payment_webhook_secret env = s)
    (hpay : get_payment_by_provider_payment_id db event.provider_payment_id =
      some payment)
    (hmatch : payment.order_id = event.order_id)
    (horder : get_order db event.order_id = some o) :
    ∃ db' ack,
      mock_payment_webhook env (some s) event rb db = .ok (db', ack) ∧
      (get_order db' event.order_id).map Order.status =
        some (if event.status = "authorized" ∨ event.status = "captured" then
                "confirmed"
              else if event.status = "failed" then "cancelled"
              else o.status) := by
  have hbeq : (s == "") = false := by simp [hs]
  have hbne : ((some s : Option String) !=
      some (get_payment_webhook_secret env)) = false := by
    rw [hsec]
    simp
  have hmisb : (payment.order_id != event.order_id) = false := by simp [hmatch]
  have hget : ∀ dbx : Db, dbx.orders = db.orders →
      get_order dbx event.order_id = some o := by
    intro dbx hdx
    rw [get_order, hdx]
    exact horder
  have hset : ∀ dbx : Db, dbx.orders = db.orders → ∀ st : String,
      set_order_status dbx event.order_id st =
        .ok ({ dbx with orders := update_first_order dbx.orders event.order_id st },
             { o with status := st }) := by
    intro dbx hdx st
    exact set_order_status_ok dbx event.order_id st o (hget dbx hdx)
  have horder' : db.orders.find? (fun x => x.id == event.order_id) = some o := by
    simpa [get_order] using horder
  by_cases hA : event.status = "authorized" ∨ event.status = "captured"
  · have hAb : (event.status == "authorized" || event.status == "captured") = true := by
      rcases hA with h | h <;> simp [h]
    cases hres : mock_payment_webhook env (some s) event rb db with
    | error e =>
      simp [mock_payment_webhook, hbeq, hbne, hpay, hmisb, hAb, hset,
        upsert_payment_orders_unchanged] at hres
    | ok r =>
      obtain ⟨db', ack⟩ := r
      refine ⟨db', ack, rfl, ?_⟩
      simp [mock_payment_webhook, hbeq, hbne, hpay, hmisb, hAb, hset,
        upsert_payment_orders_unchanged, Prod.mk.injEq] at hres
      obtain ⟨h1, _⟩ := hres
      subst h1
      have hfind := find_update_first_order event.order_id "confirmed" db.orders o horder'
      simp [hA, get_order, hfind]
  · by_cases hF : event.status = "failed"
    · have hAb : (event.status == "authorized" || event.status == "captured") = false := by
        push_neg at hA
        simp [hA.1, hA.2]
      have hFb : (event.status == "failed") = true := by simp [hF]
      cases hres : mock_payment_webhook env (some s) event rb db with
      | error e =>
        simp [mock_payment_webhook, hbeq, hbne, hpay, hmisb, hAb, hFb, hset,
          upsert_payment_orders_unchanged] at hres
      | ok r =>
        obtain ⟨db', ack⟩ := r
        refine ⟨db', ack, rfl, ?_⟩
        simp [mock_payment_webhook, hbeq, hbne, hpay, hmisb, hAb, hFb, hset,
          upsert_payment_orders_unchanged, Prod.mk.injEq] at hres
        obtain ⟨h1, _⟩ := hres
        subst h1
        have hfind := find_update_first_order event.order_id "cancelled" db.orders o horder'
        simp [hA, hF, get_order, hfind]
    · have hAb : (event.status == "authorized" || event.status == "captured") = false := by
        push_neg at hA
        simp [hA.1, hA.2]
      have hFb : (event.status == "failed") = false := by simp [hF]
      cases hres : mock_payment_webhook env (some s) event rb db with
      | error e =>
        simp [mock_payment_webhook, hbeq, hbne, hpay, hmisb, hAb, hFb] at hres
      | ok r =>
        obtain ⟨db', ack⟩ := r
        refine ⟨db', ack, rfl, ?_⟩
        simp [mock_payment_webhook, hbeq, hbne, hpay, hmisb, hAb, hFb,
          Prod.mk.injEq] at hres
        obtain ⟨h1, _⟩ := hres
        subst h1
        simp [hA, hF, get_order, upsert_payment_orders_unchanged, horder']

/-- Closed instance of C5 at an `authorized` event for the demo payment. -/
theorem webhook_maps_status_to_order_witness :
    ("dev_webhook_secret" ≠ "" ∧
     get_payment_webhook_secret none = "dev_webhook_secret" ∧
     get_payment_by_provider_payment_id demo_db_with_payment
       demo_event.provider_payment_id = some demo_payment ∧
     demo_payment.order_id = demo_event.order_id ∧
     get_order demo_db_with_payment demo_event.order_id = some demo_order) ∧
    ∃ db' ack,
      mock_payment_webhook none (some "dev_webhook_secret") demo_event none
        demo_db_with_payment = .ok (db', ack) ∧
      (get_order db' demo_event.order_id).map Order.status =
        some (if demo_event.status = "authorized" ∨ demo_event.status = "captured" then
                "confirmed"
              else if demo_event.status = "failed" then "cancelled"
              else demo_order.status) :=
  ⟨⟨by decide, rfl, by decide, by decide, by decide⟩,
   webhook_maps_status_to_order none "dev_webhook_secret" demo_event none
     demo_db_with_payment demo_payment demo_order (by decide) rfl (by decide)
     (by decide) (by decide)⟩

/-- C7 counterexample: the claim "the created Delivery's status is
`assigned` exactly when a delivery person identifier is supplied" is false
at `delivery_person_id = some 0`: the source tests Python truthiness
(`"assigned" if delivery_person_id else "unassigned"`), and `0` is falsy,
so a supplied identifier 0 yields `unassigned`. -/
theorem create_delivery_supplied_id_claim_false :
    ¬ (∀ (db : Db) (order_id : Int) (dpid : Option Int) (eta : Option Int),
        ((create_delivery db order_id dpid eta).2).status =
          if dpid.isSome then "assigned" else "unassigned") := by
  intro h
  have h0 := h empty_db 1 (some 0) none
  simp [create_delivery, truthy_int] at h0

/-- C7 (amended): the created Delivery's initial status is `assigned` when
a nonzero delivery person identifier is supplied and `unassigned` otherwise
(supplying identifier 0 yields `unassigned`), and creation appends exactly
one initial DeliveryStatusHistory row mirroring the starting status. -/
theorem create_delivery_initial_status_and_history (db : Db) (order_id : Int)
    (dpid : Option Int) (eta : Option Int) :
    ((create_delivery db order_id dpid eta).2).status =
      (match dpid with
       | some n => if n = 0 then "unassigned" else "assigned"
       | none => "unassigned") ∧
    ((create_delivery db order_id dpid eta).1).delivery_status_history =
      db.delivery_status_history ++
        [{ delivery_id := ((create_delivery db order_id dpid eta).2).id,
           status := ((create_delivery db order_id dpid eta).2).status,
           note := some "Initial status" }] := by
  constructor
  · cases dpid with
    | none => simp [create_delivery, truthy_int]
    | some n =>
      by_cases hn : n = 0
      · simp [create_delivery, truthy_int, hn]
      · simp [create_delivery, truthy_int, hn]
  · rfl

/-- C8: for an existing Delivery, `set_delivery_status` with any status
string sets the Delivery's status to that string and appends exactly one
DeliveryStatusHistory row carrying that status and the note; for a missing
Delivery it fails with a "not found" error and appends nothing. -/
theorem set_delivery_status_appends_one (db : Db) (delivery_id : Int)
    (status : String) (note : Option String) :
    (∀ d, db.deliveries.find? (fun x => x.id == delivery_id) = some d →
      ∃ db' d', set_delivery_status db delivery_id status note = .ok (db', d') ∧
        d'.status = status ∧
        db'.delivery_status_history = db.delivery_status_history ++
          [{ delivery_id := delivery_id, status := status, note := note }]) ∧
    (db.deliveries.find? (fun x => x.id == delivery_id) = none →
      set_delivery_status db delivery_id status note = .error "Delivery not found" ∧
      run_set_delivery_status db delivery_id status note = (db, none)) := by
  constructor
  · intro d hd
    cases hres : set_delivery_status db delivery_id status note with
    | error e =>
      simp [set_delivery_status, hd] at hres
    | ok r =>
      obtain ⟨db', d'⟩ := r
      simp [set_delivery_status, hd, Prod.mk.injEq] at hres
      obtain ⟨h1, h2⟩ := hres
      subst h1
      subst h2
      exact ⟨_, _, rfl, rfl, rfl⟩
  · intro hd
    constructor
    · simp [set_delivery_status, hd]
    · simp [run_set_delivery_status, set_delivery_status, hd]

/-- Closed instance of C8: a successful status update on the demo delivery
and a failing one on a missing delivery id. -/
theorem set_delivery_status_appends_one_witness :
    demo_db_with_delivery.deliveries.find? (fun x => x.id == 5) = some demo_delivery ∧
    (∃ db' d',
      set_delivery_status demo_db_with_delivery 5 "in_transit" none = .ok (db', d') ∧
      d'.status = "in_transit" ∧
      db'.delivery_status_history = demo_db_with_delivery.delivery_status_history ++
        [{ delivery_id := 5, status := "in_transit", note := none }]) ∧
    (set_delivery_status demo_db_with_delivery 99 "lost" none =
      .error "Delivery not found" ∧
     run_set_delivery_status demo_db_with_delivery 99 "lost" none =
      (demo_db_with_delivery, none)) :=
  ⟨by decide,
   (set_delivery_status_appends_one demo_db_with_delivery 5 "in_transit" none).1
     demo_delivery (by decide),
   (set_delivery_status_appends_one demo_db_with_delivery 99 "lost" none).2
     (by decide)⟩

/-- C9: `POST /deliveries` fails with 404 when the order id resolves to no
Order, and fails with 409 — creating no second Delivery row — when a
Delivery already exists for the order. -/
theorem create_delivery_endpoint_conflicts (db : Db) (payload : DeliveryCreate) :
    (get_order db payload.order_id = none →
      create_delivery_endpoint db payload =
        .error { status_code := 404, detail := "Order not found" } ∧
      run_create_delivery_endpoint db payload = (db, none)) ∧
    (∀ o d, get_order db payload.order_id = some o →
      get_delivery_by_order_id db payload.order_id = some d →
      create_delivery_endpoint db payload =
        .error { status_code := 409, detail := "Delivery already exists for this order" } ∧
      run_create_delivery_endpoint db payload = (db, none)) := by
  constructor
  · intro h
    constructor <;>
      simp [create_delivery_endpoint, run_create_delivery_endpoint, h]
  · intro o d ho hd
    constructor <;>
      simp [create_delivery_endpoint, run_create_delivery_endpoint, ho, hd]

/-- Closed instance of C9: a missing order (404) and an order that already
has a delivery (409) against the demo store. -/
theorem create_delivery_endpoint_conflicts_witness :
    get_order demo_db_with_delivery demo_delivery_payload_missing.order_id = none ∧
    (create_delivery_endpoint demo_db_with_delivery demo_delivery_payload_missing =
      .error { status_code := 404, detail := "Order not found" } ∧
     run_create_delivery_endpoint demo_db_with_delivery demo_delivery_payload_missing =
      (demo_db_with_delivery, none)) ∧
    (create_delivery_endpoint demo_db_with_delivery demo_delivery_payload_conflict =
      .error { status_code := 409, detail := "Delivery already exists for this order" } ∧
     run_create_delivery_endpoint demo_db_with_delivery demo_delivery_payload_conflict =
      (demo_db_with_delivery, none)) :=
  ⟨by decide,
   (create_delivery_endpoint_conflicts demo_db_with_delivery
     demo_delivery_payload_missing).1 (by decide),
   (create_delivery_endpoint_conflicts demo_db_with_delivery
     demo_delivery_payload_conflict).2 demo_order demo_delivery (by decide)
     (by decide)⟩

end GourmetExpress
